import Mathlib

/-!
Shallow embedding of the GKE cluster reconciliation core of
`cluster-api-provider-gcp` (files `cloud/services/container/clusters/reconcile.go`
and `cloud/scope/managedmachinepool.go`).

Go pointers to values are modelled as `Option`; a nil-pointer dereference or an
out-of-range slice index is a fault, modelled by an `Option` result where `none`
means the pass panics.  Condition writes (`conditions.MarkTrue` /
`conditions.MarkFalse`) are recorded as an ordered list of `CondWrite` values.
Provider RPCs and the kubeconfig collaborators are abstracted as boolean
success flags in an environment record, per the spec's external-interface
contract; whether each call was issued is recorded in the result.
-/

/-- Lifecycle status of the observed cluster (`containerpb.Cluster_Status`).
`other n` covers `STATUS_UNSPECIFIED` and any unrecognized enum value `n`. -/
inductive ClusterStatus where
  | provisioning
  | running
  | reconciling
  | stopping
  | error
  | degraded
  | other (code : Nat)
deriving DecidableEq, Repr

/-- SDK release-channel enum (`containerpb.ReleaseChannel_Channel`). -/
inductive SdkReleaseChannel where
  | unspecified
  | rapid
  | regular
  | stable
deriving DecidableEq, Repr

/-- CRD release-channel value (`infrav1exp.ReleaseChannel`, a string type whose
known constants are Rapid/Regular/Stable; `invalid` covers any other string). -/
inductive CrdReleaseChannel where
  | rapid
  | regular
  | stable
  | invalid
deriving DecidableEq, Repr

/-- SDK release-channel message (`containerpb.ReleaseChannel`); the observed
cluster holds a pointer to one. -/
structure ReleaseChannelMsg where
  channel : SdkReleaseChannel
deriving DecidableEq, Repr

/-- A CIDR block entry (`MasterAuthorizedNetworksConfig_CidrBlock` on the SDK
side, `MasterAuthorizedNetworksConfig.CidrBlocks` entries on the CRD side:
both carry the same two strings). -/
structure CidrBlock where
  cidrBlock : String
  displayName : String
deriving DecidableEq, Repr

/-- SDK `containerpb.MasterAuthorizedNetworksConfig`.  `cidrBlocks` is a Go
slice, which distinguishes nil (`none`) from empty (`some []`);
`gcpPublicCidrsAccessEnabled` is a `*bool`. -/
structure MasterAuthorizedNetworksConfig where
  enabled : Bool
  cidrBlocks : Option (List CidrBlock)
  gcpPublicCidrsAccessEnabled : Option Bool
deriving DecidableEq, Repr

/-- CRD-side `infrav1exp.MasterAuthorizedNetworksConfig` (the desired-state
form); its `CidrBlocks` is a plain slice of structs. -/
structure CrdMasterAuthorizedNetworksConfig where
  cidrBlocks : List CidrBlock
  gcpPublicCidrsAccessEnabled : Option Bool
deriving DecidableEq, Repr

/-- Observed cluster (`containerpb.Cluster`), restricted to the fields the
reconciliation core reads.  `releaseChannel` and
`masterAuthorizedNetworksConfig` are protobuf pointer fields. -/
structure Cluster where
  status : ClusterStatus
  currentMasterVersion : String
  endpoint : String
  releaseChannel : Option ReleaseChannelMsg
  masterAuthorizedNetworksConfig : Option MasterAuthorizedNetworksConfig
deriving DecidableEq, Repr

/-- Desired control-plane fields read by the diff step
(`GCPManagedControlPlane.Spec`): `releaseChannel` and `controlPlaneVersion`
are pointer fields, `masterAuthorizedNetworksConfig` is a pointer to the CRD
config. -/
structure ControlPlaneSpec where
  releaseChannel : Option CrdReleaseChannel
  controlPlaneVersion : Option String
  masterAuthorizedNetworksConfig : Option CrdMasterAuthorizedNetworksConfig
deriving DecidableEq, Repr

/-- Go `convertToSdkReleaseChannel`: nil pointer maps to UNSPECIFIED, the three
known constants map across, anything else falls to the default arm. -/
def convertToSdkReleaseChannel (channel : Option CrdReleaseChannel) : SdkReleaseChannel :=
  match channel with
  | none => .unspecified
  | some .rapid => .rapid
  | some .regular => .regular
  | some .stable => .stable
  | some .invalid => .unspecified

/-- Go `convertToSdkMasterAuthorizedNetworksConfig`: a nil desired config means
the user disables the feature and is converted to the canonical disabled form
(enabled false, non-nil empty allow-list, `new(bool)` i.e. pointer to false);
otherwise enabled true with the allow-list copied entry-wise and the
public-access pointer passed through. -/
def convertToSdkMasterAuthorizedNetworksConfig
    (config : Option CrdMasterAuthorizedNetworksConfig) : MasterAuthorizedNetworksConfig :=
  match config with
  | none =>
    { enabled := false
      cidrBlocks := some []
      gcpPublicCidrsAccessEnabled := some false }
  | some c =>
    { enabled := true
      cidrBlocks := some (c.cidrBlocks.map fun cb =>
        { cidrBlock := cb.cidrBlock, displayName := cb.displayName })
      gcpPublicCidrsAccessEnabled := c.gcpPublicCidrsAccessEnabled }

/-- Go `compareMasterAuthorizedNetworksConfig`: nil/nil equal, nil/non-nil
unequal; then enabled must match, the public-access pointer must match in
presence and pointed-to value, a nil allow-list equals an empty allow-list,
and otherwise the allow-lists are compared structurally (`cmp.Equal`, which
distinguishes nil from empty). -/
def compareMasterAuthorizedNetworksConfig
    (a b : Option MasterAuthorizedNetworksConfig) : Bool :=
  match a, b with
  | none, none => true
  | none, some _ => false
  | some _, none => false
  | some a, some b =>
    if a.enabled ≠ b.enabled then false
    else if (a.gcpPublicCidrsAccessEnabled = none ∧ b.gcpPublicCidrsAccessEnabled ≠ none)
        ∨ (a.gcpPublicCidrsAccessEnabled ≠ none ∧ b.gcpPublicCidrsAccessEnabled = none) then false
    else if a.gcpPublicCidrsAccessEnabled ≠ none ∧ b.gcpPublicCidrsAccessEnabled ≠ none
        ∧ a.gcpPublicCidrsAccessEnabled ≠ b.gcpPublicCidrsAccessEnabled then false
    else if (a.cidrBlocks = none ∧ b.cidrBlocks ≠ none ∧ (b.cidrBlocks.getD []).length = 0)
        ∨ (b.cidrBlocks = none ∧ a.cidrBlocks ≠ none ∧ (a.cidrBlocks.getD []).length = 0) then true
    else if a.cidrBlocks ≠ b.cidrBlocks then false
    else true

/-- Go `hasDesiredVersion`: a nil desired version counts as satisfied; a
desired version that is a string-prefix of the cluster version counts as
satisfied (partial version matching); otherwise exact equality decides. -/
def hasDesiredVersion (controlPlaneVersion : Option String) (clusterVersion : String) : Bool :=
  match controlPlaneVersion with
  | none => true
  | some v =>
    if List.isPrefixOf v.data clusterVersion.data then true
    else v = clusterVersion

/-- Go `containerpb.ClusterUpdate`, restricted to the field groups the diff
step can set.  `desiredMasterVersion` is a plain string field whose zero value
is the empty string. -/
structure ClusterUpdate where
  desiredReleaseChannel : Option ReleaseChannelMsg := none
  desiredMasterVersion : String := ""
  desiredMasterAuthorizedNetworksConfig : Option MasterAuthorizedNetworksConfig := none
deriving DecidableEq, Repr

/-- Go `checkDiffAndPrepareUpdate`.  Returns `none` when the pass panics:
the code reads `existingCluster.ReleaseChannel.Channel` through the protobuf
pointer, and in the master-version arm dereferences
`*spec.ControlPlaneVersion` whenever `hasDesiredVersion` returned true —
including when the pointer is nil. -/
def checkDiffAndPrepareUpdate (spec : ControlPlaneSpec) (existingCluster : Cluster) :
    Option (Bool × ClusterUpdate) :=
  match existingCluster.releaseChannel with
  | none => none
  | some rc =>
    let desiredReleaseChannel := convertToSdkReleaseChannel spec.releaseChannel
    let s1 : Bool × ClusterUpdate :=
      if desiredReleaseChannel ≠ rc.channel then
        (true, { desiredReleaseChannel := some { channel := desiredReleaseChannel } })
      else
        (false, {})
    let s2opt : Option (Bool × ClusterUpdate) :=
      if hasDesiredVersion spec.controlPlaneVersion existingCluster.currentMasterVersion then
        match spec.controlPlaneVersion with
        | none => none
        | some v => some (true, { s1.2 with desiredMasterVersion := v })
      else
        some s1
    match s2opt with
    | none => none
    | some s2 =>
      let desiredMasterAuthorizedNetworksConfig :=
        convertToSdkMasterAuthorizedNetworksConfig spec.masterAuthorizedNetworksConfig
      if ¬ compareMasterAuthorizedNetworksConfig (some desiredMasterAuthorizedNetworksConfig)
          existingCluster.masterAuthorizedNetworksConfig then
        some (true, { s2.2 with
          desiredMasterAuthorizedNetworksConfig := some desiredMasterAuthorizedNetworksConfig })
      else
        some s2

/-- Names of the conditions the core writes (`clusterv1.ReadyCondition` and the
four `GKEControlPlane*Condition` names). -/
inductive CondName where
  | ready
  | gkeReady
  | creating
  | updating
  | deleting
deriving DecidableEq, Repr

/-- Reasons used in `conditions.MarkFalse` calls of this core. -/
inductive CondReason where
  | reconciliationFailed
  | requiresAtLeastOneNodePool
  | creating
  | deleting
  | errorState
  | updated
  | created
  | deleted
deriving DecidableEq, Repr

/-- Severities used in `conditions.MarkFalse` calls of this core. -/
inductive CondSeverity where
  | error
  | info
deriving DecidableEq, Repr

/-- One condition write: `MarkTrue` carries no reason/severity, `MarkFalse`
carries both. -/
structure CondWrite where
  cond : CondName
  isTrue : Bool
  reason : Option CondReason
  severity : Option CondSeverity
deriving DecidableEq, Repr

/-- A `conditions.MarkTrue` write. -/
def markTrueW (c : CondName) : CondWrite :=
  { cond := c, isTrue := true, reason := none, severity := none }

/-- A `conditions.MarkFalse` write. -/
def markFalseW (c : CondName) (r : CondReason) (sev : CondSeverity) : CondWrite :=
  { cond := c, isTrue := false, reason := some r, severity := some sev }

/-- The mutable status projection (`GCPManagedControlPlane.Status` plus the
endpoint set via `scope.SetEndpoint`). -/
structure StatusRecord where
  initialized : Bool := false
  ready : Bool := false
  currentVersion : String := ""
  endpoint : String := ""
deriving DecidableEq, Repr

/-- Result of `describeCluster`: the cluster, a not-found (nil, nil), or a
lookup failure. -/
inductive DescribeOutcome where
  | ok (cluster : Cluster)
  | notFound
  | failed
deriving DecidableEq, Repr

/-- Errors a pass can return, one per distinct error return site of
`Reconcile`/`Delete`.  `autopilotPoolsNotAllowed` is the distinct
`ErrAutopilotClusterMachinePoolsNotAllowed`; `unexpectedClusterStatus` is
`NewErrUnexpectedClusterStatus` carrying the raw status code. -/
inductive SvcError where
  | describeFailed
  | getNodePoolsFailed
  | autopilotPoolsNotAllowed
  | createFailed
  | updateFailed
  | kubeconfigFailed
  | additionalKubeconfigFailed
  | unexpectedClusterStatus (code : Nat)
  | deleteFailed
deriving DecidableEq, Repr

/-- Outcome of a pass: `done` is `(ctrl.Result{}, nil)`, `requeueAfter` is
`(ctrl.Result{RequeueAfter: reconciler.DefaultRetryTime}, nil)`, and `err`
is `(ctrl.Result{}, e)`.  No other `ctrl.Result` shape occurs in this core. -/
inductive Outcome where
  | done
  | requeueAfter
  | err (e : SvcError)
deriving DecidableEq, Repr

/-- The two kubeconfig-sync collaborators, in the order `Reconcile` calls
them (`reconcileKubeconfig`, then `reconcileAdditionalKubeconfigs`). -/
inductive KubeconfigStep where
  | capi
  | additional
deriving DecidableEq, Repr

/-- Everything one pass produced: the returned outcome, the status record as
left by the pass, the ordered condition writes, which provider calls were
issued, and which kubeconfig collaborators ran. -/
structure PassResult where
  outcome : Outcome
  status : StatusRecord
  writes : List CondWrite := []
  createCalled : Bool := false
  updateCalled : Bool := false
  deleteCalled : Bool := false
  kubeconfigSteps : List KubeconfigStep := []
deriving DecidableEq, Repr

/-- Environment of one `Reconcile` pass: the describe outcome, the node-pool
lookup (`GetAllNodePools`) success flag and pool count, the autopilot flag,
the desired control-plane spec, and success flags for the create/update RPCs
and the two kubeconfig collaborators (all external per the spec). -/
structure ReconcileEnv where
  describe : DescribeOutcome
  getNodePoolsOk : Bool
  numNodePools : Nat
  isAutopilot : Bool
  spec : ControlPlaneSpec
  createOk : Bool
  updateOk : Bool
  kubeconfigOk : Bool
  additionalKubeconfigsOk : Bool
deriving DecidableEq, Repr

/-- Go `Service.Reconcile`, transcribed branch by branch; `none` means the
pass panics (nil-pointer dereference inside `checkDiffAndPrepareUpdate`). -/
def Reconcile (env : ReconcileEnv) (st : StatusRecord) : Option PassResult :=
  match env.describe with
  | .failed =>
    some { outcome := .err .describeFailed
           status := { st with initialized := false, ready := false }
           writes := [markFalseW .ready .reconciliationFailed .error] }
  | .notFound =>
    let st1 : StatusRecord := { st with initialized := false, ready := false }
    if ¬ env.getNodePoolsOk then
      some { outcome := .err .getNodePoolsFailed
             status := st1
             writes := [markFalseW .ready .reconciliationFailed .error,
                        markFalseW .gkeReady .reconciliationFailed .error,
                        markFalseW .creating .reconciliationFailed .error] }
    else if env.isAutopilot ∧ env.numNodePools > 0 then
      some { outcome := .err .autopilotPoolsNotAllowed
             status := st1
             writes := [markFalseW .ready .requiresAtLeastOneNodePool .info,
                        markFalseW .gkeReady .requiresAtLeastOneNodePool .info,
                        markFalseW .creating .requiresAtLeastOneNodePool .info] }
    else if ¬ env.isAutopilot ∧ env.numNodePools = 0 then
      some { outcome := .requeueAfter
             status := st1
             writes := [markFalseW .ready .requiresAtLeastOneNodePool .info,
                        markFalseW .gkeReady .requiresAtLeastOneNodePool .info,
                        markFalseW .creating .requiresAtLeastOneNodePool .info] }
    else if ¬ env.createOk then
      some { outcome := .err .createFailed
             status := st1
             writes := [markFalseW .ready .reconciliationFailed .error,
                        markFalseW .gkeReady .reconciliationFailed .error,
                        markFalseW .creating .reconciliationFailed .error]
             createCalled := true }
    else
      some { outcome := .requeueAfter
             status := st1
             writes := [markFalseW .ready .creating .info,
                        markFalseW .gkeReady .creating .info,
                        markTrueW .creating]
             createCalled := true }
  | .ok cluster =>
    let st1 : StatusRecord := { st with currentVersion := cluster.currentMasterVersion }
    match cluster.status with
    | .provisioning =>
      some { outcome := .requeueAfter
             status := { st1 with initialized := false, ready := false }
             writes := [markFalseW .ready .creating .info,
                        markFalseW .gkeReady .creating .info,
                        markTrueW .creating] }
    | .reconciling =>
      some { outcome := .requeueAfter
             status := { st1 with initialized := true, ready := true }
             writes := [markTrueW .updating] }
    | .stopping =>
      some { outcome := .requeueAfter
             status := { st1 with initialized := false, ready := false }
             writes := [markFalseW .ready .deleting .info,
                        markFalseW .gkeReady .deleting .info,
                        markTrueW .deleting] }
    | .error =>
      some { outcome := .done
             status := { st1 with ready := false, initialized := false }
             writes := [markFalseW .gkeReady .errorState .error] }
    | .degraded =>
      some { outcome := .done
             status := { st1 with ready := false, initialized := false }
             writes := [markFalseW .gkeReady .errorState .error] }
    | .other code =>
      some { outcome := .err (.unexpectedClusterStatus code)
             status := st1 }
    | .running =>
      match checkDiffAndPrepareUpdate env.spec cluster with
      | none => none
      | some (needUpdate, _updateClusterRequest) =>
        if needUpdate then
          if ¬ env.updateOk then
            some { outcome := .err .updateFailed
                   status := st1
                   updateCalled := true }
          else
            some { outcome := .done
                   status := { st1 with initialized := true, ready := true }
                   writes := [markTrueW .updating]
                   updateCalled := true }
        else
          if ¬ env.kubeconfigOk then
            some { outcome := .err .kubeconfigFailed
                   status := st1
                   writes := [markFalseW .updating .updated .info]
                   kubeconfigSteps := [.capi] }
          else if ¬ env.additionalKubeconfigsOk then
            some { outcome := .err .additionalKubeconfigFailed
                   status := st1
                   writes := [markFalseW .updating .updated .info]
                   kubeconfigSteps := [.capi, .additional] }
          else
            some { outcome := .done
                   status := { st1 with
                     endpoint := cluster.endpoint
                     ready := true
                     initialized := true }
                   writes := [markFalseW .updating .updated .info,
                              markTrueW .ready,
                              markTrueW .gkeReady,
                              markFalseW .creating .created .info]
                   kubeconfigSteps := [.capi, .additional] }

/-- Environment of one `Delete` pass: the describe outcome and the delete-RPC
success flag. -/
structure DeleteEnv where
  describe : DescribeOutcome
  deleteOk : Bool
deriving DecidableEq, Repr

/-- Go `Service.Delete`, transcribed branch by branch.  No pointer is
dereferenced on this path, so the pass cannot panic. -/
def Delete (env : DeleteEnv) (st : StatusRecord) : PassResult :=
  match env.describe with
  | .failed =>
    { outcome := .err .describeFailed, status := st }
  | .notFound =>
    { outcome := .done
      status := st
      writes := [markFalseW .deleting .deleted .info] }
  | .ok cluster =>
    match cluster.status with
    | .provisioning =>
      { outcome := .done, status := st }
    | .reconciling =>
      { outcome := .done, status := st }
    | .stopping =>
      { outcome := .done
        status := st
        writes := [markFalseW .gkeReady .deleting .info,
                   markTrueW .deleting] }
    | _ =>
      if ¬ env.deleteOk then
        { outcome := .err .deleteFailed
          status := st
          writes := [markFalseW .deleting .reconciliationFailed .error]
          deleteCalled := true }
      else
        { outcome := .done
          status := { st with initialized := false, ready := false }
          writes := [markFalseW .ready .deleting .info,
                     markFalseW .gkeReady .deleting .info,
                     markTrueW .deleting]
          deleteCalled := true }

/-- Modelled from the spec: the repository's `cloud.DefaultNumRegionsPerZone`
constant lives outside the provided sources; only its use as a divisor matters
to the claims, not its value. -/
def DefaultNumRegionsPerZone : Int := 3

/-- Node-pool autoscaling bounds from the CRD
(`infrav1exp.NodePoolAutoScaling`), both fields pointers. -/
structure NodePoolAutoScaling where
  minCount : Option Int
  maxCount : Option Int
deriving DecidableEq, Repr

/-- Node management flags from the CRD (`infrav1exp.NodeManagement`), both
fields pointers. -/
structure NodeManagement where
  autoUpgrade : Option Bool
  autoRepair : Option Bool
deriving DecidableEq, Repr

/-- A Kubernetes taint as carried through the conversion; the CRD and SDK
forms both hold key/value/effect. -/
structure Taint where
  key : String
  value : String
  effect : String
deriving DecidableEq, Repr

/-- Modelled from the spec: `infrav1exp.ConvertToSdkTaint` is outside the
provided sources; it translates each CRD taint to the SDK taint form
entry-wise. -/
def ConvertToSdkTaint (taints : List Taint) : List Taint :=
  taints.map fun t => { key := t.key, value := t.value, effect := t.effect }

/-- Modelled from the spec: `infrav1exp.NormalizeMachineVersion` is outside
the provided sources; it normalizes a machine version string (dropping a
leading "v"), total on strings. -/
def NormalizeMachineVersion (version : String) : String :=
  if version.data.head? = some 'v' then { data := version.data.tail } else version

/-- CRD `GCPManagedMachinePool` restricted to the fields
`ConvertToSdkNodePool` reads. -/
structure GCPManagedMachinePool where
  name : String
  nodePoolName : String
  scaling : Option NodePoolAutoScaling
  management : Option NodeManagement
  machineType : String
  diskSizeGb : Int
  diskType : String
  kubernetesLabels : List (String × String)
  kubernetesTaints : List Taint
  additionalLabels : List (String × String)
  imageType : String
  preemptible : Option Bool
  spot : Option Bool
deriving DecidableEq, Repr

/-- CAPI `MachinePool` restricted to the fields `ConvertToSdkNodePool` reads:
`Spec.Replicas` (a pointer) and `Spec.Template.Spec.Version` (a pointer). -/
structure MachinePool where
  replicas : Option Int
  version : Option String
deriving DecidableEq, Repr

/-- SDK `containerpb.NodePoolAutoscaling`. -/
structure SdkNodePoolAutoscaling where
  enabled : Bool
  minNodeCount : Int := 0
  maxNodeCount : Int := 0
deriving DecidableEq, Repr

/-- SDK `containerpb.NodeManagement`. -/
structure SdkNodeManagement where
  autoUpgrade : Bool := false
  autoRepair : Bool := false
deriving DecidableEq, Repr

/-- SDK `containerpb.NodeConfig` restricted to the fields the conversion
sets. -/
structure SdkNodeConfig where
  machineType : String
  diskSizeGb : Int
  diskType : String
  labels : List (String × String)
  taints : List Taint
  metadata : List (String × String)
  imageType : String
  preemptible : Bool
  spot : Bool
deriving DecidableEq, Repr

/-- SDK `containerpb.NodePool` restricted to the fields the conversion
sets. -/
structure SdkNodePool where
  name : String
  initialNodeCount : Int
  autoscaling : Option SdkNodePoolAutoscaling
  management : Option SdkNodeManagement
  config : SdkNodeConfig
  version : String := ""
deriving DecidableEq, Repr

/-- Go `convertToSdkNodePoolAutoscaling`: nil scaling gives nil; otherwise
enabled with each bound copied when its pointer is set. -/
def convertToSdkNodePoolAutoscaling (scaling : Option NodePoolAutoScaling) :
    Option SdkNodePoolAutoscaling :=
  match scaling with
  | none => none
  | some s =>
    some { enabled := true
           minNodeCount := s.minCount.getD 0
           maxNodeCount := s.maxCount.getD 0 }

/-- Go `convertToSdkNodeManagement`: nil management gives nil; otherwise each
flag copied when its pointer is set. -/
def convertToSdkNodeManagement (management : Option NodeManagement) :
    Option SdkNodeManagement :=
  match management with
  | none => none
  | some m =>
    some { autoUpgrade := m.autoUpgrade.getD false
           autoRepair := m.autoRepair.getD false }

/-- Go `ConvertToSdkNodePool`.  The first statement dereferences
`*machinePool.Spec.Replicas` unconditionally, so a nil `Replicas` pointer is
a fault (`none`).  Go `int32` division truncates toward zero, matching
`Int.tdiv`. -/
def ConvertToSdkNodePool (nodePool : GCPManagedMachinePool) (machinePool : MachinePool)
    (regional : Bool) : Option SdkNodePool := do
  let replicas0 ← machinePool.replicas
  let replicas := if regional then Int.tdiv replicas0 DefaultNumRegionsPerZone else replicas0
  let nodePoolName :=
    if nodePool.nodePoolName.length = 0 then nodePool.name else nodePool.nodePoolName
  let sdkNodePool : SdkNodePool :=
    { name := nodePoolName
      initialNodeCount := replicas
      autoscaling := convertToSdkNodePoolAutoscaling nodePool.scaling
      management := convertToSdkNodeManagement nodePool.management
      config :=
        { machineType := nodePool.machineType
          diskSizeGb := nodePool.diskSizeGb
          diskType := nodePool.diskType
          labels := nodePool.kubernetesLabels
          taints := ConvertToSdkTaint nodePool.kubernetesTaints
          metadata := nodePool.additionalLabels
          imageType := nodePool.imageType
          preemptible := nodePool.preemptible.getD false
          spot := nodePool.spot.getD false } }
  match machinePool.version with
  | some v => pure { sdkNodePool with version := NormalizeMachineVersion v }
  | none => pure sdkNodePool

/-- Go `ConvertToSdkNodePools`: iterates over the node pools by index and
reads `machinePools[i]` for each, so a machine-pool list shorter than the
node-pool list is an index-out-of-range fault (`none`); a fault in any
per-pool conversion also faults the whole conversion. -/
def ConvertToSdkNodePools (nodePools : List GCPManagedMachinePool)
    (machinePools : List MachinePool) (regional : Bool) : Option (List SdkNodePool) :=
  match nodePools, machinePools with
  | [], _ => some []
  | _ :: _, [] => none
  | np :: nps, mp :: mps =>
    match ConvertToSdkNodePool np mp regional with
    | none => none
    | some first =>
      match ConvertToSdkNodePools nps mps regional with
      | none => none
      | some rest => some (first :: rest)

/-- Observed cluster fixture: RUNNING, with release channel and
authorized-networks config agreeing with an all-unset desired spec. -/
def clusterRun : Cluster :=
  { status := .running
    currentMasterVersion := "1.24.14-gke.2700"
    endpoint := "34.1.2.3"
    releaseChannel := some { channel := .unspecified }
    masterAuthorizedNetworksConfig :=
      some { enabled := false, cidrBlocks := some [], gcpPublicCidrsAccessEnabled := some false } }

/-- Desired-spec fixture with every pointer field unset. -/
def specBase : ControlPlaneSpec :=
  { releaseChannel := none
    controlPlaneVersion := none
    masterAuthorizedNetworksConfig := none }

/-- Desired-spec fixture asking for version 1.25 (set, not a prefix of the
observed 1.24.14-gke.2700, and not equal to it). -/
def specV125 : ControlPlaneSpec := { specBase with controlPlaneVersion := some "1.25" }

/-- Desired-spec fixture asking for version 1.24 (a proper prefix of the
observed 1.24.14-gke.2700). -/
def specV124 : ControlPlaneSpec := { specBase with controlPlaneVersion := some "1.24" }

/-- Empty status-record fixture. -/
def stEmpty : StatusRecord := {}

/-- Reconcile-environment fixture: all collaborators succeed. -/
def envBase : ReconcileEnv :=
  { describe := .ok clusterRun
    getNodePoolsOk := true
    numNodePools := 1
    isAutopilot := false
    spec := specV125
    createOk := true
    updateOk := true
    kubeconfigOk := true
    additionalKubeconfigsOk := true }

/-- True exactly when an outcome is the unexpected-cluster-status error. -/
def isUnexpectedStatusErr (o : Outcome) : Bool :=
  match o with
  | .err (.unexpectedClusterStatus _) => true
  | _ => false

/-- A write list records a failure when some MarkFalse write in it carries one
of the two failure reasons this core uses
(`GKEControlPlaneReconciliationFailedReason`,
`GKEControlPlaneRequiresAtLeastOneNodePoolReason`). -/
def recordsFailureReason (ws : List CondWrite) : Prop :=
  ∃ w ∈ ws, w.isTrue = false ∧
    (w.reason = some .reconciliationFailed ∨ w.reason = some .requiresAtLeastOneNodePool)

/-- Node-pool fixture for witnesses. -/
def npA : GCPManagedMachinePool :=
  { name := "pool-a", nodePoolName := "", scaling := none, management := none
    machineType := "e2-medium", diskSizeGb := 100, diskType := "pd-standard"
    kubernetesLabels := [], kubernetesTaints := [], additionalLabels := []
    imageType := "", preemptible := none, spot := none }

/-- Machine-pool fixture with a set replicas pointer. -/
def mpA : MachinePool := { replicas := some 3, version := none }

/-- C1: the diff step's version check is inverted relative to the claim.  The
claim says an update is needed iff the desired version is set, is not a
prefix of the observed version, and differs from it.  On the code: with
desired "1.25" against observed "1.24.14-gke.2700" (set, not a prefix, not
equal) `hasDesiredVersion` is false and `checkDiffAndPrepareUpdate` reports
no update and leaves the master-version field empty; with desired "1.24" (a
prefix, hence satisfied) it reports an update and puts "1.24" into the
request. -/
theorem C1_version_check_inverted :
    hasDesiredVersion (some "1.25") "1.24.14-gke.2700" = false
    ∧ hasDesiredVersion (some "1.24") "1.24.14-gke.2700" = true
    ∧ checkDiffAndPrepareUpdate specV125 clusterRun = some (false, {})
    ∧ checkDiffAndPrepareUpdate specV124 clusterRun =
        some (true, { desiredMasterVersion := "1.24" }) := by
  refine ⟨by decide, by decide, by decide, by decide⟩

/-- C2: with the desired control-plane version unset (nil) and the observed
cluster RUNNING, the diff step does not complete: `hasDesiredVersion` returns
true for a nil pointer and the caller then dereferences that nil pointer, so
the pass faults (`none`) instead of treating the version as satisfied. -/
theorem C2_nil_version_faults :
    checkDiffAndPrepareUpdate specBase clusterRun = none
    ∧ Reconcile { envBase with spec := specBase } stEmpty = none := by
  refine ⟨by decide, by decide⟩

/-- C3: lifecycle dispatch of `Reconcile` on an observed cluster.
PROVISIONING requeues after the fixed interval with initialized and ready
false and the Creating condition true; RECONCILING requeues with initialized
and ready true and the Updating condition true; STOPPING requeues with
initialized and ready false and the Deleting condition true; ERROR and
DEGRADED end the pass done (no error, no requeue override) with ready and
initialized false and the GKE Ready condition marked false with the error
reason; any unrecognized status returns the unexpected-status error. -/
theorem C3_lifecycle_dispatch (env : ReconcileEnv) (st : StatusRecord) (cluster : Cluster)
    (h : env.describe = .ok cluster) :
    (cluster.status = .provisioning →
      Reconcile env st = some
        { outcome := .requeueAfter
          status := { st with currentVersion := cluster.currentMasterVersion
                              initialized := false
                              ready := false }
          writes := [markFalseW .ready .creating .info,
                     markFalseW .gkeReady .creating .info,
                     markTrueW .creating] })
    ∧ (cluster.status = .reconciling →
      Reconcile env st = some
        { outcome := .requeueAfter
          status := { st with currentVersion := cluster.currentMasterVersion
                              initialized := true
                              ready := true }
          writes := [markTrueW .updating] })
    ∧ (cluster.status = .stopping →
      Reconcile env st = some
        { outcome := .requeueAfter
          status := { st with currentVersion := cluster.currentMasterVersion
                              initialized := false
                              ready := false }
          writes := [markFalseW .ready .deleting .info,
                     markFalseW .gkeReady .deleting .info,
                     markTrueW .deleting] })
    ∧ (cluster.status = .error ∨ cluster.status = .degraded →
      Reconcile env st = some
        { outcome := .done
          status := { st with currentVersion := cluster.currentMasterVersion
                              initialized := false
                              ready := false }
          writes := [markFalseW .gkeReady .errorState .error] })
    ∧ (∀ code, cluster.status = .other code →
      Reconcile env st = some
        { outcome := .err (.unexpectedClusterStatus code)
          status := { st with currentVersion := cluster.currentMasterVersion } }) := by
  refine ⟨?_, ?_, ?_, ?_, ?_⟩
  · intro hs; simp [Reconcile, h, hs]
  · intro hs; simp [Reconcile, h, hs]
  · intro hs; simp [Reconcile, h, hs]
  · rintro (hs | hs) <;> simp [Reconcile, h, hs]
  · intro code hs; simp [Reconcile, h, hs]

/-- C3 witness: the RECONCILING arm evaluated on a concrete environment. -/
theorem C3_lifecycle_dispatch_witness :
    Reconcile { envBase with describe := .ok { clusterRun with status := .reconciling } } stEmpty
      = some
        { outcome := .requeueAfter
          status := { stEmpty with currentVersion := "1.24.14-gke.2700"
                                   initialized := true
                                   ready := true }
          writes := [markTrueW .updating] } :=
  (C3_lifecycle_dispatch { envBase with describe := .ok { clusterRun with status := .reconciling } }
    stEmpty { clusterRun with status := .reconciling } rfl).2.1 rfl

/-- C9: `Delete` on an observed cluster in STOPPING issues no delete call,
marks the Deleting condition true and the GKE Ready condition false with the
deleting reason, and returns done with no error. -/
theorem C9_delete_stopping (env : DeleteEnv) (st : StatusRecord) (cluster : Cluster)
    (hd : env.describe = .ok cluster) (hs : cluster.status = .stopping) :
    Delete env st =
      { outcome := .done
        status := st
        writes := [markFalseW .gkeReady .deleting .info, markTrueW .deleting]
        deleteCalled := false } := by
  simp [Delete, hd, hs]

/-- C9 witness: the STOPPING delete arm evaluated on a concrete
environment. -/
theorem C9_delete_stopping_witness :
    Delete { describe := .ok { clusterRun with status := .stopping }, deleteOk := true } stEmpty
      = { outcome := .done
          status := stEmpty
          writes := [markFalseW .gkeReady .deleting .info, markTrueW .deleting]
          deleteCalled := false } :=
  C9_delete_stopping { describe := .ok { clusterRun with status := .stopping }, deleteOk := true }
    stEmpty { clusterRun with status := .stopping } rfl rfl

/-- C5: on the create path (cluster not found, pool lookup succeeded), the
pool-count preflight classifies exactly as claimed: autopilot with at least
one declared pool fails with the distinct precondition error and issues no
create call; no autopilot with zero pools returns requeue-after with no
error and no create call; in the remaining cases the create call is
issued. -/
theorem C5_create_preflight (env : ReconcileEnv) (st : StatusRecord)
    (hd : env.describe = .notFound) (hp : env.getNodePoolsOk = true) :
    (env.isAutopilot = true → 0 < env.numNodePools →
      ∃ r, Reconcile env st = some r ∧ r.outcome = .err .autopilotPoolsNotAllowed ∧
        r.createCalled = false)
    ∧ (env.isAutopilot = false → env.numNodePools = 0 →
      ∃ r, Reconcile env st = some r ∧ r.outcome = .requeueAfter ∧ r.createCalled = false)
    ∧ (env.isAutopilot = true ∧ env.numNodePools = 0 ∨
        env.isAutopilot = false ∧ 0 < env.numNodePools →
      ∃ r, Reconcile env st = some r ∧ r.createCalled = true) := by
  refine ⟨?_, ?_, ?_⟩
  · intro ha hn
    simp only [Reconcile, hd, hp, ha, hn]
    norm_num
  · intro ha hn
    simp only [Reconcile, hd, hp, ha, hn]
    norm_num
  · rintro (⟨ha, hn⟩ | ⟨ha, hn⟩) <;> by_cases hc : env.createOk = true
    · simp only [Reconcile, hd, hp, ha, hn, hc]; norm_num
    · simp only [Reconcile, hd, hp, ha, hn, hc]; norm_num
    · have hn2 : env.numNodePools ≠ 0 := by omega
      simp only [Reconcile, hd, hp, ha, hn2, hc]; norm_num
    · have hn2 : env.numNodePools ≠ 0 := by omega
      simp only [Reconcile, hd, hp, ha, hn2, hc]; norm_num

/-- C5 witness: the autopilot-with-pools arm evaluated on a concrete
environment. -/
theorem C5_create_preflight_witness :
    ∃ r, Reconcile { envBase with describe := .notFound, isAutopilot := true } stEmpty = some r
      ∧ r.outcome = .err .autopilotPoolsNotAllowed ∧ r.createCalled = false :=
  (C5_create_preflight { envBase with describe := .notFound, isAutopilot := true } stEmpty
    rfl rfl).1 rfl (by decide)

/-- C6: a RUNNING pass where the diff step reports no update needed issues
no update call, clears the Updating condition with the updated reason, runs
the two kubeconfig collaborators in order, and on their success marks the
Ready conditions true, clears the Creating condition with the created
reason, sets initialized and ready, records the endpoint, and returns
done. -/
theorem C6_running_no_diff (env : ReconcileEnv) (st : StatusRecord) (cluster : Cluster)
    (u : ClusterUpdate)
    (hd : env.describe = .ok cluster) (hs : cluster.status = .running)
    (hdiff : checkDiffAndPrepareUpdate env.spec cluster = some (false, u))
    (hk1 : env.kubeconfigOk = true) (hk2 : env.additionalKubeconfigsOk = true) :
    Reconcile env st = some
      { outcome := .done
        status := { st with currentVersion := cluster.currentMasterVersion
                            endpoint := cluster.endpoint
                            ready := true
                            initialized := true }
        writes := [markFalseW .updating .updated .info,
                   markTrueW .ready,
                   markTrueW .gkeReady,
                   markFalseW .creating .created .info]
        createCalled := false
        updateCalled := false
        kubeconfigSteps := [.capi, .additional] } := by
  simp only [Reconcile, hd, hs, hdiff, hk1, hk2]
  norm_num

/-- C6 witness: the no-diff RUNNING pass evaluated on a concrete
environment. -/
theorem C6_running_no_diff_witness :
    Reconcile envBase stEmpty = some
      { outcome := .done
        status := { stEmpty with currentVersion := "1.24.14-gke.2700"
                                 endpoint := "34.1.2.3"
                                 ready := true
                                 initialized := true }
        writes := [markFalseW .updating .updated .info,
                   markTrueW .ready,
                   markTrueW .gkeReady,
                   markFalseW .creating .created .info]
        createCalled := false
        updateCalled := false
        kubeconfigSteps := [.capi, .additional] } :=
  C6_running_no_diff envBase stEmpty clusterRun {} rfl rfl (by decide) rfl rfl

/-- C4: the authorized-networks comparison rules.  An unset desired config
converts to the canonical disabled form (enabled false, empty allow-list,
public-access pointer to false); two present configs compare equal exactly
when their enabled flags match, their public-access pointers match in
presence and pointed-to value, and their allow-lists are structurally equal
or one is nil while the other is empty; and inside the diff step the
master-authorized-networks field is put into the update request exactly when
the converted desired config (never a nil) compares unequal to the observed
one. -/
theorem C4_authorized_networks_rules :
    (convertToSdkMasterAuthorizedNetworksConfig none =
      { enabled := false, cidrBlocks := some [], gcpPublicCidrsAccessEnabled := some false })
    ∧ (∀ a b : MasterAuthorizedNetworksConfig,
        compareMasterAuthorizedNetworksConfig (some a) (some b) = true ↔
          (a.enabled = b.enabled
            ∧ a.gcpPublicCidrsAccessEnabled = b.gcpPublicCidrsAccessEnabled
            ∧ (a.cidrBlocks = b.cidrBlocks
               ∨ (a.cidrBlocks = none ∧ b.cidrBlocks = some [])
               ∨ (b.cidrBlocks = none ∧ a.cidrBlocks = some []))))
    ∧ (∀ spec cluster res, checkDiffAndPrepareUpdate spec cluster = some res →
        (res.2.desiredMasterAuthorizedNetworksConfig ≠ none ↔
          compareMasterAuthorizedNetworksConfig
            (some (convertToSdkMasterAuthorizedNetworksConfig
              spec.masterAuthorizedNetworksConfig))
            cluster.masterAuthorizedNetworksConfig = false)) := by
  refine ⟨rfl, ?_, ?_⟩
  · intro a b
    obtain ⟨ea, ca, pa⟩ := a
    obtain ⟨eb, cb, pb⟩ := b
    simp only [compareMasterAuthorizedNetworksConfig]
    rcases pa with _ | xa <;> rcases pb with _ | xb <;>
      rcases ca with _ | la <;> rcases cb with _ | lb <;>
      split_ifs with h1 h2 h3 h4 h5 <;>
      simp_all [List.length_eq_zero]
  · intro spec cluster res h
    rcases hrc : cluster.releaseChannel with _ | rc
    · simp [checkDiffAndPrepareUpdate, hrc] at h
    · rcases hv : spec.controlPlaneVersion with _ | v <;>
        simp only [checkDiffAndPrepareUpdate, hrc, hv] at h <;>
        split_ifs at h <;>
        simp_all <;>
        subst h <;>
        simp

/-- C4 witness: a nil allow-list compares equal to an empty one, and the
diff-step equivalence instantiated on a concrete spec and cluster. -/
theorem C4_authorized_networks_rules_witness :
    compareMasterAuthorizedNetworksConfig
      (some { enabled := true, cidrBlocks := none, gcpPublicCidrsAccessEnabled := some true })
      (some { enabled := true, cidrBlocks := some [], gcpPublicCidrsAccessEnabled := some true })
      = true
    ∧ (((false : Bool), ({} : ClusterUpdate)).2.desiredMasterAuthorizedNetworksConfig ≠ none ↔
        compareMasterAuthorizedNetworksConfig
          (some (convertToSdkMasterAuthorizedNetworksConfig
            specV125.masterAuthorizedNetworksConfig))
          clusterRun.masterAuthorizedNetworksConfig = false) :=
  ⟨(C4_authorized_networks_rules.2.1 _ _).mpr ⟨rfl, rfl, Or.inr (Or.inl ⟨rfl, rfl⟩)⟩,
   C4_authorized_networks_rules.2.2 specV125 clusterRun (false, {}) (by decide)⟩

/-- C7 counterexample: `Delete` with a failed describe returns an error with
no condition write at all, refuting the claim that every error outcome of
Reconcile or Delete is preceded by a condition write recording the
failure. -/
theorem C7_counterexample_delete_describe_error :
    (Delete { describe := .failed, deleteOk := true } stEmpty).outcome = .err .describeFailed
    ∧ (Delete { describe := .failed, deleteOk := true } stEmpty).writes = [] :=
  ⟨rfl, rfl⟩

/-- C7 amended: error returns from Reconcile's describe, node-pool-lookup,
autopilot-precondition and create-call failures record a failure reason in a
condition write, and so does Delete's delete-call failure; but Reconcile's
update-call failure and unexpected-status error return with no condition
write, its kubeconfig-sync failures carry only the unrelated
Updating-cleared write, and Delete's describe failure returns with no
condition write. -/
theorem C7_amended_condition_writes :
    (∀ env st r, Reconcile env st = some r →
      ((r.outcome = .err .describeFailed ∨ r.outcome = .err .getNodePoolsFailed
          ∨ r.outcome = .err .autopilotPoolsNotAllowed ∨ r.outcome = .err .createFailed) →
        recordsFailureReason r.writes)
      ∧ (r.outcome = .err .updateFailed → r.writes = [])
      ∧ (isUnexpectedStatusErr r.outcome = true → r.writes = [])
      ∧ ((r.outcome = .err .kubeconfigFailed ∨ r.outcome = .err .additionalKubeconfigFailed) →
        r.writes = [markFalseW .updating .updated .info]))
    ∧ (∀ env st r, Delete env st = r →
      (r.outcome = .err .deleteFailed → recordsFailureReason r.writes)
      ∧ (r.outcome = .err .describeFailed → r.writes = [])) := by
  constructor
  · intro env st r h
    rcases hd : env.describe with cluster | _ | _
    · rcases hs : cluster.status
      case running =>
        rcases hc : checkDiffAndPrepareUpdate env.spec cluster with _ | p
        · simp [Reconcile, hd, hs, hc] at h
        · obtain ⟨nu, ur⟩ := p
          by_cases hnu : nu = true
          · by_cases hu : env.updateOk = true <;>
              simp only [Reconcile, hd, hs, hc, hnu] at h <;>
              simp [hu] at h <;> subst h <;>
              refine ⟨?_, ?_, ?_, ?_⟩ <;> intro h2 <;>
              simp_all [recordsFailureReason, markFalseW, markTrueW, isUnexpectedStatusErr]
          · by_cases hk1 : env.kubeconfigOk = true <;>
              by_cases hk2 : env.additionalKubeconfigsOk = true <;>
              simp only [Reconcile, hd, hs, hc] at h <;>
              simp [hnu, hk1, hk2] at h <;> subst h <;>
              refine ⟨?_, ?_, ?_, ?_⟩ <;> intro h2 <;>
              simp_all [recordsFailureReason, markFalseW, markTrueW, isUnexpectedStatusErr]
      all_goals
        simp only [Reconcile, hd, hs] at h
      all_goals
        simp only [Option.some.injEq] at h
      all_goals
        subst h
      all_goals
        refine ⟨?_, ?_, ?_, ?_⟩ <;> intro h2 <;>
        simp_all [recordsFailureReason, markFalseW, markTrueW, isUnexpectedStatusErr]
    · simp only [Reconcile, hd] at h
      split_ifs at h <;> simp only [Option.some.injEq] at h <;> subst h <;>
        refine ⟨?_, ?_, ?_, ?_⟩ <;> intro h2 <;>
        simp_all [recordsFailureReason, markFalseW, markTrueW, isUnexpectedStatusErr]
    · simp only [Reconcile, hd, Option.some.injEq] at h
      subst h
      refine ⟨?_, ?_, ?_, ?_⟩ <;> intro h2 <;>
        simp_all [recordsFailureReason, markFalseW, markTrueW, isUnexpectedStatusErr]
  · intro env st r h
    rcases hd : env.describe with cluster | _ | _
    · rcases hs : cluster.status
      case provisioning =>
        simp only [Delete, hd, hs] at h; subst h
        constructor <;> intro h2 <;> simp_all
      case reconciling =>
        simp only [Delete, hd, hs] at h; subst h
        constructor <;> intro h2 <;> simp_all
      case stopping =>
        simp only [Delete, hd, hs] at h; subst h
        constructor <;> intro h2 <;> simp_all
      all_goals
        by_cases hdel : env.deleteOk = true <;>
          simp only [Delete, hd, hs] at h <;> simp [hdel] at h <;> subst h <;>
          constructor <;> intro h2 <;>
          simp_all [recordsFailureReason, markFalseW, markTrueW]
    · simp only [Delete, hd] at h; subst h
      constructor <;> intro h2 <;> simp_all
    · simp only [Delete, hd] at h; subst h
      constructor <;> intro h2 <;> simp_all

/-- C7 witness: the describe-failure arm of Reconcile evaluated on a
concrete environment does record a failure reason. -/
theorem C7_amended_condition_writes_witness :
    recordsFailureReason [markFalseW .ready .reconciliationFailed .error] :=
  (C7_amended_condition_writes.1 { envBase with describe := .failed } stEmpty
    { outcome := .err .describeFailed
      status := { stEmpty with initialized := false, ready := false }
      writes := [markFalseW .ready .reconciliationFailed .error] } rfl).1 (Or.inl rfl)

/-- C8 counterexample: `Delete` on an observed PROVISIONING cluster ends the
pass waiting on the in-flight operation yet returns done, not
requeue-after, refuting the claim for the Delete side. -/
theorem C8_counterexample_delete_wait_done :
    (Delete { describe := .ok { clusterRun with status := .provisioning }, deleteOk := true }
      stEmpty).outcome = .done
    ∧ (Delete { describe := .ok { clusterRun with status := .provisioning }, deleteOk := true }
        stEmpty).outcome ≠ .requeueAfter
    ∧ (Delete { describe := .ok { clusterRun with status := .provisioning }, deleteOk := true }
        stEmpty).deleteCalled = false :=
  ⟨rfl, by decide, rfl⟩

/-- C8 amended: in `Reconcile` every pass that ends waiting on a
non-terminal in-flight operation (observed PROVISIONING, RECONCILING or
STOPPING, or a just-issued create) returns requeue-after the fixed
interval; in `Delete` those wait states return done with no requeue
override. -/
theorem C8_amended_wait_outcomes :
    (∀ env st cluster r, env.describe = .ok cluster →
      (cluster.status = .provisioning ∨ cluster.status = .reconciling ∨
        cluster.status = .stopping) →
      Reconcile env st = some r → r.outcome = .requeueAfter)
    ∧ (∀ env st r, env.describe = .notFound → env.getNodePoolsOk = true →
        env.createOk = true → Reconcile env st = some r → r.createCalled = true →
        r.outcome = .requeueAfter)
    ∧ (∀ env st cluster, env.describe = .ok cluster →
        (cluster.status = .provisioning ∨ cluster.status = .reconciling ∨
          cluster.status = .stopping) →
        (Delete env st).outcome = .done ∧ (Delete env st).deleteCalled = false) := by
  refine ⟨?_, ?_, ?_⟩
  · intro env st cluster r hd hs h
    rcases hs with hs | hs | hs <;> simp [Reconcile, hd, hs] at h <;> subst h <;> rfl
  · intro env st r hd hp hcr h hcc
    simp only [Reconcile, hd] at h
    simp [hp, hcr] at h
    split_ifs at h <;> simp at h <;> subst h <;> simp_all
  · intro env st cluster hd hs
    rcases hs with hs | hs | hs <;> simp [Delete, hd, hs]

/-- C8 witness: the Delete wait arm evaluated on a concrete RECONCILING
cluster returns done and issues no delete call. -/
theorem C8_amended_wait_outcomes_witness :
    (Delete { describe := .ok { clusterRun with status := .reconciling }, deleteOk := true }
      stEmpty).outcome = .done
    ∧ (Delete { describe := .ok { clusterRun with status := .reconciling }, deleteOk := true }
        stEmpty).deleteCalled = false :=
  C8_amended_wait_outcomes.2.2
    { describe := .ok { clusterRun with status := .reconciling }, deleteOk := true }
    stEmpty { clusterRun with status := .reconciling } rfl (Or.inr (Or.inl rfl))

/-- Per-pool conversion faults exactly when the machine pool's replicas
pointer is nil. -/
theorem convertToSdkNodePool_isSome (np : GCPManagedMachinePool) (mp : MachinePool)
    (regional : Bool) :
    (ConvertToSdkNodePool np mp regional).isSome = mp.replicas.isSome := by
  rcases hr : mp.replicas with _ | n <;> rcases hv : mp.version with _ | v <;>
    simp [ConvertToSdkNodePool, hr, hv]

/-- C10: `ConvertToSdkNodePools` pairs pools positionally and is fault-free
exactly when the machine-pool list is at least as long as the node-pool
list and every paired machine pool has a set replicas pointer; under that
precondition the result has exactly one entry per node pool, the i-th entry
being the conversion of the i-th node pool with the i-th machine pool. -/
theorem C10_convert_node_pools (nodePools : List GCPManagedMachinePool)
    (machinePools : List MachinePool) (regional : Bool) :
    ((ConvertToSdkNodePools nodePools machinePools regional).isSome ↔
      (nodePools.length ≤ machinePools.length ∧
        ∀ i (hn : i < nodePools.length) (hm : i < machinePools.length),
          (machinePools.get ⟨i, hm⟩).replicas.isSome))
    ∧ (∀ l, ConvertToSdkNodePools nodePools machinePools regional = some l →
        l.length = nodePools.length ∧
        ∀ i (hl : i < l.length) (hn : i < nodePools.length) (hm : i < machinePools.length),
          ConvertToSdkNodePool (nodePools.get ⟨i, hn⟩) (machinePools.get ⟨i, hm⟩) regional
            = some (l.get ⟨i, hl⟩)) := by
  induction nodePools generalizing machinePools with
  | nil =>
    constructor
    · simp [ConvertToSdkNodePools]
    · intro l h
      simp only [ConvertToSdkNodePools, Option.some.injEq] at h
      subst h
      simp
  | cons np nps ih =>
    cases machinePools with
    | nil =>
      constructor
      · simp [ConvertToSdkNodePools]
      · intro l h
        simp [ConvertToSdkNodePools] at h
    | cons mp mps =>
      constructor
      · rcases h1 : ConvertToSdkNodePool np mp regional with _ | first
        · have hrep : mp.replicas.isSome = false := by
            rw [← convertToSdkNodePool_isSome np mp regional, h1]
            rfl
          simp only [ConvertToSdkNodePools, h1]
          constructor
          · intro hf
            simp at hf
          · rintro ⟨hlen, hall⟩
            have := hall 0 (Nat.succ_pos _) (Nat.succ_pos _)
            simp [hrep] at this
        · rcases h2 : ConvertToSdkNodePools nps mps regional with _ | rest
          · simp only [ConvertToSdkNodePools, h1, h2]
            constructor
            · intro hf
              simp at hf
            · rintro ⟨hlen, hall⟩
              have hih := (ih mps).1
              rw [h2] at hih
              have : (nps.length ≤ mps.length ∧
                  ∀ i (hn : i < nps.length) (hm : i < mps.length),
                    (mps.get ⟨i, hm⟩).replicas.isSome) := by
                refine ⟨Nat.succ_le_succ_iff.mp hlen, ?_⟩
                intro i hn hm
                have := hall (i + 1) (Nat.succ_lt_succ hn) (Nat.succ_lt_succ hm)
                simpa using this
              have hfalse := hih.mpr this
              simp at hfalse
          · simp only [ConvertToSdkNodePools, h1, h2]
            constructor
            · intro _
              have hih := ((ih mps).1).mp (by rw [h2]; rfl)
              refine ⟨Nat.succ_le_succ hih.1, ?_⟩
              intro i hn hm
              cases i with
              | zero =>
                have : mp.replicas.isSome = true := by
                  rw [← convertToSdkNodePool_isSome np mp regional, h1]; rfl
                simpa using this
              | succ i =>
                have := hih.2 i (Nat.lt_of_succ_lt_succ hn) (Nat.lt_of_succ_lt_succ hm)
                simpa using this
            · intro _
              rfl
      · intro l h
        rcases h1 : ConvertToSdkNodePool np mp regional with _ | first <;>
          rcases h2 : ConvertToSdkNodePools nps mps regional with _ | rest <;>
          simp only [ConvertToSdkNodePools, h1, h2] at h <;>
          simp at h
        subst h
        have hih := (ih mps).2 rest h2
        constructor
        · simpa using hih.1
        · intro i hl hn hm
          cases i with
          | zero => simpa using h1
          | succ i =>
            have := hih.2 i (Nat.lt_of_succ_lt_succ hl) (Nat.lt_of_succ_lt_succ hn)
              (Nat.lt_of_succ_lt_succ hm)
            simpa using this

/-- C10 witness: the conversion of one concrete pool pair succeeds and has
one entry. -/
theorem C10_convert_node_pools_witness :
    ([{ name := "pool-a"
        initialNodeCount := 3
        autoscaling := none
        management := none
        config := { machineType := "e2-medium", diskSizeGb := 100, diskType := "pd-standard",
                    labels := [], taints := [], metadata := [], imageType := "",
                    preemptible := false, spot := false }
        version := "" }] : List SdkNodePool).length = [npA].length :=
  ((C10_convert_node_pools [npA] [mpA] false).2 _ rfl).1
